import Mathlib

/-!
Shallow embedding of the mobsf-cli-python core: the JSON value model,
the error model (`mobsf_core/error.py`), the response decoders
(`mobsf_core/response.py`), the API client's error handling and the
operations the claims concern (`mobsf_core/client.py`), and the CI
threshold validation (`cli/app.py`).

Python is dynamically typed, so record fields produced by the decoders
hold arbitrary JSON values (`Json`); exceptions other than the library's
own `MobsfError` are modelled by `PyExc`.  The ambient wall clock read by
`datetime.now()` is passed explicitly as a `Nat` instant, and the
filesystem / network effects of the client are passed as explicit
environment records.
-/

/-- A decoded JSON value, as produced by `response.json()` in Python:
`null`/`bool`/number/string/array/object.  JSON numbers are modelled as
integers (no claim depends on fractional body values). -/
inductive Json where
  | null : Json
  | bool (b : Bool) : Json
  | num (n : Int) : Json
  | str (s : String) : Json
  | arr (xs : List Json) : Json
  | obj (kvs : List (String × Json)) : Json

/-- Python `dict.get(k)`: first binding of key `k`, if any (Python dicts
have unique keys, so an association list with first-match lookup is a
faithful model). -/
def jget (kvs : List (String × Json)) (k : String) : Option Json :=
  (kvs.find? (fun p => p.1 == k)).map Prod.snd

/-- Python `dict.get(k, default)`. -/
def jgetD (kvs : List (String × Json)) (k : String) (default : Json) : Json :=
  (jget kvs k).getD default

/-- Python exceptions other than `MobsfError` that the modelled code can
raise; these are NOT part of the library's typed error model. -/
inductive PyExc where
  | keyError (k : String) : PyExc
  | typeError (msg : String) : PyExc
  | attributeError (msg : String) : PyExc
  | valueError (msg : String) : PyExc
deriving DecidableEq, Repr

/-- `ErrorCause` enum from `mobsf_core/error.py`. -/
inductive ErrorCause where
  | httpClientError : ErrorCause
  | ioError : ErrorCause
  | invalidHttpResponse : ErrorCause
deriving DecidableEq, Repr

/-- The `.value` string of each `ErrorCause` member, exactly as in
`mobsf_core/error.py` lines 10-12. -/
def ErrorCause.value : ErrorCause → String
  | .httpClientError => "HttpClientError"
  | .ioError => "IoError"
  | .invalidHttpResponse => "InvalidHttpResponse"

mutual

/-- Model of Python `str()` restricted to JSON-decoded values.  Container
rendering (single-quoted reprs) ignores string-escape sequences, which no
message in this development contains. -/
def pyStr : Json → String
  | .null => "None"
  | .bool true => "True"
  | .bool false => "False"
  | .num n => toString n
  | .str s => s
  | .arr xs => "[" ++ pyReprList xs ++ "]"
  | .obj kvs => "\x7b" ++ pyReprObj kvs ++ "\x7d"

/-- Model of Python `repr()` on JSON-decoded values (strings become
single-quoted; escapes are not modelled, no claim uses them). -/
def pyRepr : Json → String
  | .str s => "'" ++ s ++ "'"
  | .null => "None"
  | .bool true => "True"
  | .bool false => "False"
  | .num n => toString n
  | .arr xs => "[" ++ pyReprList xs ++ "]"
  | .obj kvs => "\x7b" ++ pyReprObj kvs ++ "\x7d"

/-- Comma-joined reprs of a JSON array's elements. -/
def pyReprList : List Json → String
  | [] => ""
  | [x] => pyRepr x
  | x :: xs => pyRepr x ++ ", " ++ pyReprList xs

/-- Comma-joined `'key': value` reprs of a JSON object's entries. -/
def pyReprObj : List (String × Json) → String
  | [] => ""
  | [(k, v)] => "'" ++ k ++ "': " ++ pyRepr v
  | (k, v) :: kvs => "'" ++ k ++ "': " ++ pyRepr v ++ ", " ++ pyReprObj kvs

end

/-- `MobsfError` from `mobsf_core/error.py`: cause, message (a Python
object — dynamically typed, hence `Json`), optional HTTP status code. -/
structure MobsfError where
  cause : ErrorCause
  message : Json
  status_code : Option Int := none

/-- `MobsfError._format_message` (error.py lines 31-35): Python's
`if self.status_code:` is a truthiness test, so a status code of `0`
behaves like an absent one. -/
def MobsfError.formatMessage (e : MobsfError) : String :=
  match e.status_code with
  | some c =>
      if c ≠ 0 then
        e.cause.value ++ "(" ++ toString c ++ "): " ++ pyStr e.message
      else
        e.cause.value ++ ": " ++ pyStr e.message
  | none => e.cause.value ++ ": " ++ pyStr e.message

/-- Python truthiness of a JSON-decoded value (`if trackers_data:` etc.). -/
def Json.truthy : Json → Bool
  | .null => false
  | .bool b => b
  | .num n => n != 0
  | .str s => !s.isEmpty
  | .arr xs => !xs.isEmpty
  | .obj kvs => !kvs.isEmpty

/-- Python `data[k]` on a dict: the value, or a `KeyError` when absent. -/
def pyIndex (kvs : List (String × Json)) (k : String) : Except PyExc Json :=
  match jget kvs k with
  | some v => Except.ok v
  | none => Except.error (.keyError k)

/-- `ErrorResponse` (response.py lines 10-23). -/
structure ErrorResponse where
  error : Json

/-- `ErrorResponse.from_dict`: `data.get("error", "Unknown error")`.  A
non-dict argument raises `AttributeError` (`.get` does not exist on it). -/
def ErrorResponse.fromDict : Json → Except PyExc ErrorResponse
  | .obj kvs => Except.ok ⟨jgetD kvs "error" (.str "Unknown error")⟩
  | _ => Except.error (.attributeError "get")

/-- `UploadResponse` (response.py lines 26-55).  Python dataclasses do not
check field types, so every field holds an arbitrary JSON value. -/
structure UploadResponse where
  analyzer : Json
  status : Json
  hash : Json
  scan_type : Json
  file_name : Json

/-- `UploadResponse.from_dict` (response.py lines 46-55): five mandatory
`data[...]` subscripts, evaluated in source order, raising `KeyError` on
the first absent key; a non-dict raises `TypeError`. -/
def UploadResponse.fromDict : Json → Except PyExc UploadResponse
  | .obj kvs => do
      let analyzer ← pyIndex kvs "analyzer"
      let status ← pyIndex kvs "status"
      let hash ← pyIndex kvs "hash"
      let scan_type ← pyIndex kvs "scan_type"
      let file_name ← pyIndex kvs "file_name"
      return ⟨analyzer, status, hash, scan_type, file_name⟩
  | _ => Except.error (.typeError "not subscriptable")

/-- `Trackers` (response.py lines 58-71). -/
structure Trackers where
  detected_trackers : Json
  total_trackers : Json

/-- `Trackers.from_dict` (response.py lines 65-71). -/
def Trackers.fromDict : Json → Except PyExc Trackers
  | .obj kvs => do
      let d ← pyIndex kvs "detected_trackers"
      let t ← pyIndex kvs "total_trackers"
      return ⟨d, t⟩
  | _ => Except.error (.typeError "not subscriptable")

/-- `ScanResponse` (response.py lines 74-139).  `package_name` is read
with `data.get`, which yields Python `None` (here `Json.null`) when the
key is absent. -/
structure ScanResponse where
  title : Json
  version : Json
  file_name : Json
  app_name : Json
  app_type : Json
  package_name : Json
  size : Json
  md5 : Json
  sha1 : Json
  sha256 : Json
  average_cvss : Json
  security_score : Json
  trackers : Option Trackers

/-- `ScanResponse.from_dict` (response.py lines 119-139): the trackers
sub-object is decoded first (`if trackers_data` is a truthiness test);
the remaining mandatory fields are `data[...]` subscripts in source
order. -/
def ScanResponse.fromDict : Json → Except PyExc ScanResponse
  | .obj kvs => do
      let trackersData := jgetD kvs "trackers" .null
      let trackers ←
        if trackersData.truthy then
          (Trackers.fromDict trackersData).map some
        else
          pure none
      let title ← pyIndex kvs "title"
      let version ← pyIndex kvs "version"
      let file_name ← pyIndex kvs "file_name"
      let app_name ← pyIndex kvs "app_name"
      let app_type ← pyIndex kvs "app_type"
      let package_name := jgetD kvs "package_name" .null
      let size ← pyIndex kvs "size"
      let md5 ← pyIndex kvs "md5"
      let sha1 ← pyIndex kvs "sha1"
      let sha256 ← pyIndex kvs "sha256"
      let average_cvss ← pyIndex kvs "average_cvss"
      let security_score ← pyIndex kvs "security_score"
      return ⟨title, version, file_name, app_name, app_type, package_name,
              size, md5, sha1, sha256, average_cvss, security_score, trackers⟩
  | _ => Except.error (.typeError "not subscriptable")

/-- Modelled from the external `dateutil` parser called at response.py
line 161: it raises `TypeError` on non-string input and `ValueError` on
strings it cannot read (in particular the empty string).  We model the
accepted strings as the nonempty decimal-digit strings, read as an
abstract instant; the source wraps the call in
`except (ValueError, TypeError)`, so only success-versus-failure and the
parse being a function of the string matter to the claims. -/
def parseTimestamp : Json → Option Nat
  | .str s =>
      if s.isEmpty then none
      else if s.data.all Char.isDigit then
        some (s.data.foldl (fun n c => 10 * n + (c.toNat - 48)) 0)
      else none
  | _ => none

/-- `ScanItem` (response.py lines 142-174).  `timestamp` is a `datetime`
instant, modelled as a `Nat`. -/
structure ScanItem where
  scan_type : Json
  analyzer : Json
  timestamp : Nat
  md5 : Json
  version_name : Json
  app_name : Json
  package_name : Json
  file_name : Json

/-- The raw timestamp value looked up at response.py line 159:
`data.get("TIMESTAMP", data.get("timestamp", ""))`. -/
def tsLookup (kvs : List (String × Json)) : Json :=
  jgetD kvs "TIMESTAMP" (jgetD kvs "timestamp" (.str ""))

/-- `ScanItem.from_dict` (response.py lines 155-174): every field is a
`dict.get` with an upper-case key tried before the lower-case key and an
empty-string default; a timestamp that fails to parse is replaced by
`datetime.now()`, the ambient clock instant `now` passed explicitly
here. -/
def ScanItem.fromDict (now : Nat) (kvs : List (String × Json)) : ScanItem :=
  { scan_type := jgetD kvs "SCAN_TYPE" (jgetD kvs "scan_type" (.str ""))
    analyzer := jgetD kvs "ANALYZER" (jgetD kvs "analyzer" (.str ""))
    timestamp := (parseTimestamp (tsLookup kvs)).getD now
    md5 := jgetD kvs "MD5" (jgetD kvs "md5" (.str ""))
    version_name := jgetD kvs "VERSION_NAME" (jgetD kvs "version_name" (.str ""))
    app_name := jgetD kvs "APP_NAME" (jgetD kvs "app_name" (.str ""))
    package_name := jgetD kvs "PACKAGE_NAME" (jgetD kvs "package_name" (.str ""))
    file_name := jgetD kvs "FILE_NAME" (jgetD kvs "file_name" (.str "")) }

/-- `ScansResponse` (response.py lines 177-227). -/
structure ScansResponse where
  content : List ScanItem
  count : Json
  num_pages : Json

/-- Python `for item in content_data` with `ScanItem.from_dict(item)` on
each element: iterating a non-list mirrors Python (a dict yields its
keys, a string its characters — each then failing `item.get` with
`AttributeError` unless the container is empty; other values raise
`TypeError`). -/
def scanItemsOf (now : Nat) : Json → Except PyExc (List ScanItem)
  | .arr items =>
      items.mapM (fun it =>
        match it with
        | .obj ikvs => Except.ok (ScanItem.fromDict now ikvs)
        | _ => Except.error (.attributeError "get"))
  | .obj okvs =>
      if okvs.isEmpty then Except.ok [] else Except.error (.attributeError "get")
  | .str s =>
      if s.isEmpty then Except.ok [] else Except.error (.attributeError "get")
  | _ => Except.error (.typeError "not iterable")

/-- `ScansResponse.from_dict` (response.py lines 217-227): `content`
defaults to the empty list, `count` to `len(content)`, `num_pages` to
`1`, all via `dict.get` defaults. -/
def ScansResponse.fromDict (now : Nat) : Json → Except PyExc ScansResponse
  | .obj kvs => do
      let contentData := jgetD kvs "content" (.arr [])
      let content ← scanItemsOf now contentData
      return ⟨content, jgetD kvs "count" (.num content.length),
              jgetD kvs "num_pages" (.num 1)⟩
  | _ => Except.error (.attributeError "get")

/-- `DeleteScanResponse` (response.py lines 230-243). -/
structure DeleteScanResponse where
  deleted : Json

/-- `DeleteScanResponse.from_dict` (response.py lines 240-243). -/
def DeleteScanResponse.fromDict : Json → Except PyExc DeleteScanResponse
  | .obj kvs => do
      let d ← pyIndex kvs "deleted"
      return ⟨d⟩
  | _ => Except.error (.typeError "not subscriptable")

/-- `ViewSourceResponse` (response.py lines 246-275). -/
structure ViewSourceResponse where
  title : Json
  file : Json
  file_type : Json
  data : Json
  version : Json

/-- `ViewSourceResponse.from_dict` (response.py lines 266-275):
`file_type` is read with `data.get("type", data.get("file_type", ""))`,
the rest are mandatory subscripts in source order. -/
def ViewSourceResponse.fromDict : Json → Except PyExc ViewSourceResponse
  | .obj kvs => do
      let title ← pyIndex kvs "title"
      let file ← pyIndex kvs "file"
      let file_type := jgetD kvs "type" (jgetD kvs "file_type" (.str ""))
      let d ← pyIndex kvs "data"
      let version ← pyIndex kvs "version"
      return ⟨title, file, file_type, d, version⟩
  | _ => Except.error (.typeError "not subscriptable")

/-- An HTTP response as the client observes it: numeric status code, body
text, and the result of `response.json()` — `none` models the
`ValueError` that call raises when the body is not valid JSON. -/
structure HttpResponse where
  status_code : Int
  text : String
  jsonBody : Option Json

/-- `Mobsf._handle_error_response` (client.py lines 88-107).  `.ok e`
means the method raised the typed `MobsfError e`; `.error p` means an
exception outside the typed model escaped — a body that is valid JSON
but not an object makes `ErrorResponse.from_dict` raise
`AttributeError`, which `except (ValueError, KeyError)` does not catch.
An undecodable body is caught and falls back to `response.text or
"HTTP <code>"` (`or` is a truthiness test, so empty text selects the
generic string). -/
def handleErrorResponse (r : HttpResponse) : Except PyExc MobsfError :=
  match r.jsonBody with
  | none =>
      Except.ok
        { cause := .invalidHttpResponse
          message := .str (if r.text.isEmpty then "HTTP " ++ toString r.status_code else r.text)
          status_code := some r.status_code }
  | some j =>
      match ErrorResponse.fromDict j with
      | Except.ok er =>
          Except.ok
            { cause := .invalidHttpResponse
              message := er.error
              status_code := some r.status_code }
      | Except.error p => Except.error p

/-- The transport retry configuration built in `Mobsf._create_session`
(client.py lines 59-64), field for field. -/
structure RetryPolicy where
  total : Nat
  status_forcelist : List Nat
  allowed_methods : List String
  backoff_factor : Nat

/-- The `Retry(...)` value constructed at client.py lines 59-64. -/
def mobsfRetryPolicy : RetryPolicy :=
  { total := 3
    status_forcelist := [429, 500, 502, 503, 504]
    allowed_methods := ["HEAD", "GET", "POST", "PUT", "DELETE", "OPTIONS", "TRACE"]
    backoff_factor := 1 }

/-- The idempotent HTTP methods of RFC 7231 §4.2.2 — the ones a retry
policy restricted to idempotent-safe methods may repeat.  POST is not
among them. -/
def idempotentMethods : List String :=
  ["GET", "HEAD", "PUT", "DELETE", "OPTIONS", "TRACE"]

/-- What the local filesystem says about the upload path, as queried by
`Path.exists` / `Path.is_file` (client.py lines 121-133). -/
inductive PathKind where
  | absent : PathKind
  | directory : PathKind
  | regular : PathKind
deriving DecidableEq, Repr

/-- The effects `Mobsf.upload` can encounter, passed explicitly: the
path's kind on disk, whether `open(path, "rb")` succeeds (`ioMsg` is the
exception text otherwise), and the outcome of `session.post` — `none`
models a raised `requests.RequestException` rendered as `netMsg`. -/
structure UploadEnv where
  pathKind : PathKind
  openOk : Bool
  ioMsg : String
  net : Option HttpResponse
  netMsg : String

/-- Outcome at the client boundary: a returned value, a raised typed
`MobsfError`, or a raised Python exception outside the typed model. -/
inductive ClientOutcome (α : Type) where
  | ok (a : α) : ClientOutcome α
  | mobsfError (e : MobsfError) : ClientOutcome α
  | pyError (p : PyExc) : ClientOutcome α

/-- A client outcome together with whether an HTTP request was issued. -/
structure Traced (α : Type) where
  result : ClientOutcome α
  httpCalled : Bool

/-- `Mobsf.upload` (client.py lines 109-159): missing path and non-file
checks come first (typed `IoError`, no request); then the file is opened
and POSTed (`RequestException` → typed `HttpClientError`, `IOError` →
typed `IoError`); a non-200 status routes through
`_handle_error_response`; a 200 body is decoded by
`UploadResponse.from_dict(response.json())` with no exception handling,
so a `ValueError`/`KeyError`/`TypeError` there escapes untyped. -/
def Mobsf.upload (env : UploadEnv) (filePath : String) : Traced UploadResponse :=
  match env.pathKind with
  | .absent =>
      ⟨.mobsfError ⟨.ioError, .str ("File not found: " ++ filePath), none⟩, false⟩
  | .directory =>
      ⟨.mobsfError ⟨.ioError, .str ("Not a file: " ++ filePath), none⟩, false⟩
  | .regular =>
      if env.openOk then
        match env.net with
        | none => ⟨.mobsfError ⟨.httpClientError, .str env.netMsg, none⟩, true⟩
        | some r =>
            if r.status_code ≠ 200 then
              ⟨(match handleErrorResponse r with
                 | Except.ok e => .mobsfError e
                 | Except.error p => .pyError p), true⟩
            else
              match r.jsonBody with
              | none => ⟨.pyError (.valueError "invalid json"), true⟩
              | some j =>
                  ⟨(match UploadResponse.fromDict j with
                     | Except.ok u => .ok u
                     | Except.error p => .pyError p), true⟩
      else
        ⟨.mobsfError ⟨.ioError, .str env.ioMsg, none⟩, false⟩

/-- The effects `report_json` / `write_report_json` can encounter:
network outcome of the POST (`none` models `RequestException` rendered
as `netMsg`) and whether opening/writing the destination succeeds
(`writeMsg` the `IOError` text otherwise). -/
structure ReportEnv where
  net : Option HttpResponse
  netMsg : String
  writeOk : Bool
  writeMsg : String

/-- `Mobsf.report_json` (client.py lines 303-332): POST the hash, map a
non-200 status through `_handle_error_response`, otherwise return the
complete body text. -/
def Mobsf.reportJson (env : ReportEnv) : ClientOutcome String :=
  match env.net with
  | none => .mobsfError ⟨.httpClientError, .str env.netMsg, none⟩
  | some r =>
      if r.status_code ≠ 200 then
        match handleErrorResponse r with
        | Except.ok e => .mobsfError e
        | Except.error p => .pyError p
      else .ok r.text

/-- Trace of `write_report_json`: the outcome, whether the code reached
the `open(file_path, "w")` call at all, and the text written when the
write succeeded. -/
structure WriteTrace (α : Type) where
  result : ClientOutcome α
  fileOpened : Bool
  written : Option String

/-- `Mobsf.write_report_json` (client.py lines 334-358): fetch the full
report text first; only then open and write the destination file, an
`IOError` there becoming a typed `IoError`. -/
def Mobsf.writeReportJson (env : ReportEnv) : WriteTrace String :=
  match Mobsf.reportJson env with
  | .ok text =>
      if env.writeOk then ⟨.ok text, true, some text⟩
      else ⟨.mobsfError ⟨.ioError, .str env.writeMsg, none⟩, true, none⟩
  | .mobsfError e => ⟨.mobsfError e, false, none⟩
  | .pyError p => ⟨.pyError p, false, none⟩

/-- Model of Python float formatting for the one-decimal-digit values
this repository's gate messages can print (`3.5` prints as `3.5`,
`4` as `4.0`); values needing more digits do not occur in any claim. -/
def pyNumStr (q : Rat) : String :=
  if q.den = 1 then toString q.num ++ ".0"
  else toString q.floor ++ "." ++ toString ((q - q.floor) * 10).num

/-- The per-metric threshold failures raised by `App.ci`
(cli/app.py lines 83-103), each carrying the offending value and the
configured limit. -/
inductive CiFailure where
  | cvssTooHigh (value limit : Rat) : CiFailure
  | securityTooLow (value limit : Int) : CiFailure
  | trackersTooHigh (value limit : Int) : CiFailure
deriving DecidableEq, Repr

/-- The `AppError` message for each threshold failure, exactly the
f-strings at cli/app.py lines 85, 92 and 101 (including the source's
"is to high"/"is to low" wording). -/
def CiFailure.message : CiFailure → String
  | .cvssTooHigh v l =>
      "CVSS score [" ++ pyNumStr v ++ "] is to high. Max: " ++ pyNumStr l ++ "!"
  | .securityTooLow v l =>
      "Security score [" ++ toString v ++ "] is to low. Min: " ++ toString l ++ "!"
  | .trackersTooHigh v l =>
      "Trackers score [" ++ toString v ++ "] is to high. Max: " ++ toString l ++ "!"

/-- The threshold-validation block of `App.ci` (cli/app.py lines 80-103)
over the numeric scan metrics: CVSS is checked first (strict `>` against
the configured max), then the security score (strict `<` against the
configured min), then the detected-tracker count when tracker data is
present.  `average_cvss` is a Python float, modelled as an exact
rational; on the decimal values the gates compare, float and rational
ordering agree. -/
def validateScores (averageCvss : Rat) (securityScore : Int)
    (detectedTrackers : Option Int) (cvss : Rat) (trackersMax : Int)
    (security : Int) : Option CiFailure :=
  if averageCvss > cvss then some (.cvssTooHigh averageCvss cvss)
  else if securityScore < security then some (.securityTooLow securityScore security)
  else
    match detectedTrackers with
    | some d => if d > trackersMax then some (.trackersTooHigh d trackersMax) else none
    | none => none

/-- The eight field values of one scan-history entry, independent of the
key spelling the server chose. -/
structure ScanEntryVals where
  scan_type : Json
  analyzer : Json
  timestamp : Json
  md5 : Json
  version_name : Json
  app_name : Json
  package_name : Json
  file_name : Json

/-- The entry rendered as a JSON object with all-upper-case keys. -/
def ScanEntryVals.upperDict (v : ScanEntryVals) : List (String × Json) :=
  [("SCAN_TYPE", v.scan_type), ("ANALYZER", v.analyzer),
   ("TIMESTAMP", v.timestamp), ("MD5", v.md5),
   ("VERSION_NAME", v.version_name), ("APP_NAME", v.app_name),
   ("PACKAGE_NAME", v.package_name), ("FILE_NAME", v.file_name)]

/-- The entry rendered as a JSON object with all-lower-case keys. -/
def ScanEntryVals.lowerDict (v : ScanEntryVals) : List (String × Json) :=
  [("scan_type", v.scan_type), ("analyzer", v.analyzer),
   ("timestamp", v.timestamp), ("md5", v.md5),
   ("version_name", v.version_name), ("app_name", v.app_name),
   ("package_name", v.package_name), ("file_name", v.file_name)]

/-- C4 counterexample: the `ErrorCause` value string is
`"InvalidHttpResponse"`, not `"InvalidResponse"`, so the 404 scenario
surfaces `InvalidHttpResponse(404): Invalid hash`; moreover a present
status code of `0` is falsy in `if self.status_code:`, so it is rendered
without the parenthesised code. -/
theorem C4_counterexample :
    (handleErrorResponse ⟨404, "\x7b\"error\": \"Invalid hash\"\x7d",
        some (.obj [("error", .str "Invalid hash")])⟩).map MobsfError.formatMessage =
      Except.ok "InvalidHttpResponse(404): Invalid hash" ∧
    ("InvalidHttpResponse(404): Invalid hash" : String) ≠
      "InvalidResponse(404): Invalid hash" ∧
    MobsfError.formatMessage ⟨.ioError, .str "m", some 0⟩ = "IoError: m" := by
  refine ⟨rfl, by decide, rfl⟩

/-- C4 (amended): a service error renders as
`<cause.value>(<statusCode>): <message>` when a nonzero status code is
present and `<cause.value>: <message>` otherwise, where the cause values
are `HttpClientError`, `IoError` and `InvalidHttpResponse`. -/
theorem C4_format_rule (c : ErrorCause) (m : String) (code : Int)
    (h : code ≠ 0) :
    MobsfError.formatMessage ⟨c, .str m, some code⟩ =
      c.value ++ "(" ++ toString code ++ "): " ++ m ∧
    MobsfError.formatMessage ⟨c, .str m, none⟩ = c.value ++ ": " ++ m := by
  constructor
  · simp [MobsfError.formatMessage, h, pyStr]
  · rfl

/-- C4 witness: the format rule applied at the 404 scenario. -/
theorem C4_format_rule_witness :
    (404 : Int) ≠ 0 ∧
    MobsfError.formatMessage ⟨.invalidHttpResponse, .str "Invalid hash", some 404⟩ =
      "InvalidHttpResponse(404): Invalid hash" ∧
    MobsfError.formatMessage ⟨.invalidHttpResponse, .str "Invalid hash", none⟩ =
      "InvalidHttpResponse: Invalid hash" :=
  ⟨by decide,
   (C4_format_rule .invalidHttpResponse "Invalid hash" 404 (by decide)).1,
   (C4_format_rule .invalidHttpResponse "Invalid hash" 404 (by decide)).2⟩

/-- C7 counterexample: the transport retry policy's allowed methods
include POST, which is not an idempotent(-safe) HTTP method. -/
theorem C7_counterexample :
    "POST" ∈ mobsfRetryPolicy.allowed_methods ∧ "POST" ∉ idempotentMethods := by
  decide

/-- C7 (amended): the retry policy uses at most 3 retries with backoff
factor 1 on exactly the statuses 429/500/502/503/504, and its allowed
methods are exactly the idempotent methods plus POST. -/
theorem C7_retry_policy :
    mobsfRetryPolicy.total = 3 ∧
    mobsfRetryPolicy.status_forcelist = [429, 500, 502, 503, 504] ∧
    mobsfRetryPolicy.backoff_factor = 1 ∧
    ∀ m, m ∈ mobsfRetryPolicy.allowed_methods ↔
      (m ∈ idempotentMethods ∨ m = "POST") := by
  refine ⟨rfl, rfl, rfl, fun m => ?_⟩
  simp only [mobsfRetryPolicy, idempotentMethods, List.mem_cons,
    List.not_mem_nil, or_false]
  tauto

/-- C8: uploading a path the filesystem reports as absent fails with a
typed `IoError` and no HTTP request is issued. -/
theorem C8_upload_missing_path (env : UploadEnv) (fp : String)
    (h : env.pathKind = .absent) :
    (Mobsf.upload env fp).result =
      .mobsfError ⟨.ioError, .str ("File not found: " ++ fp), none⟩ ∧
    (Mobsf.upload env fp).httpCalled = false := by
  obtain ⟨pk, o, i, n, m⟩ := env
  cases h
  exact ⟨rfl, rfl⟩

/-- C8 witness: a concrete absent path. -/
theorem C8_upload_missing_path_witness :
    (⟨.absent, true, "", none, ""⟩ : UploadEnv).pathKind = .absent ∧
    (Mobsf.upload ⟨.absent, true, "", none, ""⟩ "miss.apk").result =
      .mobsfError ⟨.ioError, .str "File not found: miss.apk", none⟩ ∧
    (Mobsf.upload ⟨.absent, true, "", none, ""⟩ "miss.apk").httpCalled = false :=
  ⟨rfl, (C8_upload_missing_path ⟨.absent, true, "", none, ""⟩ "miss.apk" rfl).1,
   (C8_upload_missing_path ⟨.absent, true, "", none, ""⟩ "miss.apk" rfl).2⟩

/-- C9: a scan with average CVSS 3.5 and security score 75 passes a gate
of CVSS max 3.9 and security min 71 (equality at a limit passes, the
comparisons being strict); a gate of security min 80 fails with the
message citing the value 75 and the limit 80 — for any tracker limit,
tracker data being absent. -/
theorem C9_ci_thresholds (tMax : Int) :
    validateScores (3.5 : Rat) 75 none (3.9 : Rat) tMax 71 = none ∧
    validateScores (3.5 : Rat) 75 none (3.9 : Rat) tMax 80 =
      some (.securityTooLow 75 80) ∧
    CiFailure.message (.securityTooLow 75 80) =
      "Security score [75] is to low. Min: 80!" ∧
    validateScores (3.9 : Rat) 71 none (3.9 : Rat) tMax 71 = none := by
  refine ⟨?_, ?_, rfl, ?_⟩ <;> norm_num [validateScores]

/-- C10: if the JSON-report request fails with a typed error, the
destination file is never opened and nothing is written; the file's
content, when written, is exactly the complete received report text. -/
theorem C10_no_write_on_error (env : ReportEnv) :
    (∀ e, Mobsf.reportJson env = .mobsfError e →
       Mobsf.writeReportJson env = ⟨.mobsfError e, false, none⟩) ∧
    (∀ t, Mobsf.reportJson env = .ok t → env.writeOk = true →
       (Mobsf.writeReportJson env).written = some t) := by
  constructor
  · intro e h
    simp [Mobsf.writeReportJson, h]
  · intro t h hw
    simp [Mobsf.writeReportJson, h, hw]

/-- C10 witness: a 500 response leaves the filesystem untouched; a 200
response writes the full text. -/
theorem C10_no_write_on_error_witness :
    Mobsf.reportJson ⟨some ⟨500, "err", none⟩, "", true, ""⟩ =
      .mobsfError ⟨.invalidHttpResponse, .str "err", some 500⟩ ∧
    Mobsf.writeReportJson ⟨some ⟨500, "err", none⟩, "", true, ""⟩ =
      ⟨.mobsfError ⟨.invalidHttpResponse, .str "err", some 500⟩, false, none⟩ ∧
    (Mobsf.writeReportJson ⟨some ⟨200, "REPORT", none⟩, "", true, ""⟩).written =
      some "REPORT" :=
  ⟨rfl,
   (C10_no_write_on_error ⟨some ⟨500, "err", none⟩, "", true, ""⟩).1 _ rfl,
   (C10_no_write_on_error ⟨some ⟨200, "REPORT", none⟩, "", true, ""⟩).2 "REPORT" rfl rfl⟩

/-- C1 counterexample: a non-200 response whose body is a valid JSON
object without an `error` field surfaces the message `Unknown error`,
not the raw response body text as the claim states. -/
theorem C1_counterexample :
    handleErrorResponse ⟨500, "\x7b\"foo\": 1\x7d", some (.obj [("foo", .num 1)])⟩ =
      Except.ok ⟨.invalidHttpResponse, .str "Unknown error", some 500⟩ ∧
    ("Unknown error" : String) ≠ "\x7b\"foo\": 1\x7d" := by
  refine ⟨rfl, by decide⟩

/-- C1 (amended): for a non-200 response whose body parses to a JSON
object, the surfaced `InvalidHttpResponse` message is the `error` field's
value when present and `Unknown error` otherwise; when the body is not
decodable as JSON, the message is the raw body text, or `HTTP <status>`
if the body is empty. -/
theorem C1_errorMessage_rule (r : HttpResponse) :
    (r.jsonBody = none → r.text ≠ "" →
       handleErrorResponse r =
         Except.ok ⟨.invalidHttpResponse, .str r.text, some r.status_code⟩) ∧
    (r.jsonBody = none → r.text = "" →
       handleErrorResponse r =
         Except.ok ⟨.invalidHttpResponse,
           .str ("HTTP " ++ toString r.status_code), some r.status_code⟩) ∧
    (∀ kvs v, r.jsonBody = some (.obj kvs) → jget kvs "error" = some v →
       handleErrorResponse r =
         Except.ok ⟨.invalidHttpResponse, v, some r.status_code⟩) ∧
    (∀ kvs, r.jsonBody = some (.obj kvs) → jget kvs "error" = none →
       handleErrorResponse r =
         Except.ok ⟨.invalidHttpResponse, .str "Unknown error", some r.status_code⟩) := by
  refine ⟨?_, ?_, ?_, ?_⟩
  · intro h1 h2
    simp [handleErrorResponse, h1, String.isEmpty_iff, h2]
  · intro h1 h2
    simp [handleErrorResponse, h1, String.isEmpty_iff, h2]
  · intro kvs v h1 h2
    simp [handleErrorResponse, h1, ErrorResponse.fromDict, jgetD, h2]
  · intro kvs h1 h2
    simp [handleErrorResponse, h1, ErrorResponse.fromDict, jgetD, h2]

/-- C1 witness: the rule applied to an empty undecodable body and to a
body carrying an `error` field. -/
theorem C1_errorMessage_rule_witness :
    handleErrorResponse ⟨404, "", none⟩ =
      Except.ok ⟨.invalidHttpResponse, .str "HTTP 404", some 404⟩ ∧
    handleErrorResponse ⟨404, "\x7b\"error\": \"no scan\"\x7d",
        some (.obj [("error", .str "no scan")])⟩ =
      Except.ok ⟨.invalidHttpResponse, .str "no scan", some 404⟩ :=
  ⟨(C1_errorMessage_rule ⟨404, "", none⟩).2.1 rfl rfl,
   (C1_errorMessage_rule ⟨404, "\x7b\"error\": \"no scan\"\x7d",
      some (.obj [("error", .str "no scan")])⟩).2.2.1 _ _ rfl rfl⟩

/-- C2 counterexample: a 200 upload response whose body is an empty JSON
object makes the client escape with a raw `KeyError` — not a typed
`InvalidHttpResponse` failure — and a wrong-typed present value (a
number where a string is expected) is stored in the record unchanged
with no failure at all. -/
theorem C2_counterexample :
    (Mobsf.upload ⟨.regular, true, "", some ⟨200, "\x7b\x7d", some (.obj [])⟩, ""⟩
        "app.apk").result = .pyError (.keyError "analyzer") ∧
    UploadResponse.fromDict (.obj [("analyzer", .num 1), ("status", .str "ok"),
        ("hash", .num 5), ("scan_type", .str "apk"), ("file_name", .str "f")]) =
      Except.ok ⟨.num 1, .str "ok", .num 5, .str "apk", .str "f"⟩ :=
  ⟨rfl, rfl⟩

/-- C2 (amended): when any required field is absent from a 200-response
JSON object, upload decoding raises a Python `KeyError` — naming the
first absent field in source order (`analyzer`, `status`, `hash`,
`scan_type`, `file_name`) — and every decode exception escapes the
client boundary untyped rather than as an `InvalidResponse` failure;
when every required field is present, the decoder succeeds and stores
each value in the record exactly as received, whatever its type (no
coercion, no failure). -/
theorem C2_decode_failure_escapes (kvs : List (String × Json)) :
    (∀ p, UploadResponse.fromDict (.obj kvs) = Except.error p →
       ∀ t ioMsg netMsg fp,
         (Mobsf.upload ⟨.regular, true, ioMsg, some ⟨200, t, some (.obj kvs)⟩, netMsg⟩
             fp).result = .pyError p) ∧
    (jget kvs "analyzer" = none →
       UploadResponse.fromDict (.obj kvs) = Except.error (.keyError "analyzer")) ∧
    (∀ a, jget kvs "analyzer" = some a → jget kvs "status" = none →
       UploadResponse.fromDict (.obj kvs) = Except.error (.keyError "status")) ∧
    (∀ a s, jget kvs "analyzer" = some a → jget kvs "status" = some s →
       jget kvs "hash" = none →
       UploadResponse.fromDict (.obj kvs) = Except.error (.keyError "hash")) ∧
    (∀ a s h, jget kvs "analyzer" = some a → jget kvs "status" = some s →
       jget kvs "hash" = some h → jget kvs "scan_type" = none →
       UploadResponse.fromDict (.obj kvs) = Except.error (.keyError "scan_type")) ∧
    (∀ a s h sc, jget kvs "analyzer" = some a → jget kvs "status" = some s →
       jget kvs "hash" = some h → jget kvs "scan_type" = some sc →
       jget kvs "file_name" = none →
       UploadResponse.fromDict (.obj kvs) = Except.error (.keyError "file_name")) ∧
    (∀ a s h sc f, jget kvs "analyzer" = some a → jget kvs "status" = some s →
       jget kvs "hash" = some h → jget kvs "scan_type" = some sc →
       jget kvs "file_name" = some f →
       UploadResponse.fromDict (.obj kvs) = Except.ok ⟨a, s, h, sc, f⟩) := by
  refine ⟨?_, ?_, ?_, ?_, ?_, ?_, ?_⟩
  · intro p hp t ioMsg netMsg fp
    simp [Mobsf.upload, hp]
  · intro h1
    simp [UploadResponse.fromDict, pyIndex, h1, bind, Except.bind]
  · intro a h1 h2
    simp [UploadResponse.fromDict, pyIndex, h1, h2, bind, Except.bind]
  · intro a s h1 h2 h3
    simp [UploadResponse.fromDict, pyIndex, h1, h2, h3, bind, Except.bind]
  · intro a s h h1 h2 h3 h4
    simp [UploadResponse.fromDict, pyIndex, h1, h2, h3, h4, bind, Except.bind]
  · intro a s h sc h1 h2 h3 h4 h5
    simp [UploadResponse.fromDict, pyIndex, h1, h2, h3, h4, h5,
      bind, Except.bind, Functor.map, Except.map]
  · intro a s h sc f h1 h2 h3 h4 h5
    simp [UploadResponse.fromDict, pyIndex, h1, h2, h3, h4, h5,
      bind, Except.bind, Functor.map, Except.map, pure, Except.pure]

/-- C2 witness: the amended statement at a concrete body missing only
`hash` (decode raises `KeyError('hash')` and the client surfaces it
untyped) and at a concrete fully-populated body. -/
theorem C2_decode_failure_escapes_witness :
    UploadResponse.fromDict (.obj [("analyzer", .str "st"), ("status", .str "ok"),
        ("scan_type", .str "apk"), ("file_name", .str "f")]) =
      Except.error (.keyError "hash") ∧
    (Mobsf.upload ⟨.regular, true, "",
        some ⟨200, "\x7b\"analyzer\": \"st\"\x7d",
          some (.obj [("analyzer", .str "st"), ("status", .str "ok"),
            ("scan_type", .str "apk"), ("file_name", .str "f")])⟩, ""⟩
        "a.apk").result = .pyError (.keyError "hash") ∧
    UploadResponse.fromDict (.obj [("analyzer", .str "static_analyzer"),
        ("status", .str "success"), ("hash", .str "abc123"),
        ("scan_type", .str "apk"), ("file_name", .str "test.apk")]) =
      Except.ok ⟨.str "static_analyzer", .str "success", .str "abc123",
        .str "apk", .str "test.apk"⟩ :=
  ⟨(C2_decode_failure_escapes [("analyzer", .str "st"), ("status", .str "ok"),
      ("scan_type", .str "apk"), ("file_name", .str "f")]).2.2.2.1
      (.str "st") (.str "ok") rfl rfl rfl,
   (C2_decode_failure_escapes [("analyzer", .str "st"), ("status", .str "ok"),
      ("scan_type", .str "apk"), ("file_name", .str "f")]).1
      (.keyError "hash") rfl "\x7b\"analyzer\": \"st\"\x7d" "" "" "a.apk",
   (C2_decode_failure_escapes _).2.2.2.2.2.2 _ _ _ _ _ rfl rfl rfl rfl rfl⟩

/-- C3 counterexample: decoding a scan-list entry with no timestamp at
two different clock instants produces different records, so the fallback
is the current clock time, not one deterministic fallback value. -/
theorem C3_counterexample :
    ScanItem.fromDict 0 [("app_name", Json.str "a")] ≠
      ScanItem.fromDict 1 [("app_name", Json.str "a")] := by
  intro hEq
  have h := congrArg ScanItem.timestamp hEq
  exact absurd h (by decide)

/-- C3 (amended): decoding a scan-list entry with all-upper-case keys and
with all-lower-case keys produces identical records, and a missing or
unparseable timestamp never raises — it is replaced by the decode-time
clock instant, deterministic only for a fixed clock. -/
theorem C3_case_tolerant (now : Nat) :
    (∀ v : ScanEntryVals,
       ScanItem.fromDict now v.upperDict = ScanItem.fromDict now v.lowerDict) ∧
    (∀ kvs, parseTimestamp (tsLookup kvs) = none →
       (ScanItem.fromDict now kvs).timestamp = now) := by
  constructor
  · intro v
    rfl
  · intro kvs h
    simp [ScanItem.fromDict, h]

/-- C3 witness: the case rule and fallback rule at concrete entries. -/
theorem C3_case_tolerant_witness :
    ScanItem.fromDict 7 (ScanEntryVals.upperDict
        ⟨.str "apk", .str "an", .str "99", .str "m", .str "1",
         .str "a", .str "p", .str "f"⟩) =
      ScanItem.fromDict 7 (ScanEntryVals.lowerDict
        ⟨.str "apk", .str "an", .str "99", .str "m", .str "1",
         .str "a", .str "p", .str "f"⟩) ∧
    parseTimestamp (tsLookup [("md5", Json.str "m")]) = none ∧
    (ScanItem.fromDict 7 [("md5", Json.str "m")]).timestamp = 7 :=
  ⟨(C3_case_tolerant 7).1 _, rfl, (C3_case_tolerant 7).2 _ rfl⟩

/-- C5 counterexample: decoding the same scan-list entry JSON object
twice — the second call at a later clock instant — yields different
records when the timestamp is missing, refuting unconditional
idempotence of decoding. -/
theorem C5_counterexample :
    ScanItem.fromDict 3 [("md5", Json.str "x")] ≠
      ScanItem.fromDict 4 [("md5", Json.str "x")] := by
  intro hEq
  have h := congrArg ScanItem.timestamp hEq
  exact absurd h (by decide)

/-- C5 (amended): all decoders are pure functions of the JSON input
except scan-item decoding, which also reads the clock; whenever the
entry's timestamp parses, scan-item decoding is independent of the clock,
so repeated decoding yields equal records. -/
theorem C5_decode_deterministic (now now' : Nat) (kvs : List (String × Json))
    (t : Nat) (h : parseTimestamp (tsLookup kvs) = some t) :
    ScanItem.fromDict now kvs = ScanItem.fromDict now' kvs := by
  simp [ScanItem.fromDict, h]

/-- C5 witness: a parseable timestamp at two different clock instants. -/
theorem C5_decode_deterministic_witness :
    parseTimestamp (tsLookup [("TIMESTAMP", Json.str "123")]) = some 123 ∧
    ScanItem.fromDict 5 [("TIMESTAMP", Json.str "123")] =
      ScanItem.fromDict 9 [("TIMESTAMP", Json.str "123")] :=
  ⟨by decide, C5_decode_deterministic 5 9 _ 123 (by decide)⟩

/-- C6 counterexample: `ScansResponse.from_dict` of the empty JSON object
succeeds, substituting defaults (empty content, `count = len(content)`,
`num_pages = 1`) for every missing required field instead of failing. -/
theorem C6_counterexample :
    ScansResponse.fromDict 0 (.obj []) =
      Except.ok ⟨[], Json.num 0, Json.num 1⟩ := rfl

/-- C6 (amended): the upload and delete decoders construct a record only
with every required field populated from the input (they fail
otherwise), but the scans decoder substitutes defaults for its missing
fields and constructs the record anyway. -/
theorem C6_required_fields (kvs : List (String × Json)) :
    (∀ r, UploadResponse.fromDict (.obj kvs) = Except.ok r →
       jget kvs "analyzer" = some r.analyzer ∧
       jget kvs "status" = some r.status ∧
       jget kvs "hash" = some r.hash ∧
       jget kvs "scan_type" = some r.scan_type ∧
       jget kvs "file_name" = some r.file_name) ∧
    (∀ r, DeleteScanResponse.fromDict (.obj kvs) = Except.ok r →
       jget kvs "deleted" = some r.deleted) ∧
    (∀ now, jget kvs "content" = none → jget kvs "count" = none →
       jget kvs "num_pages" = none →
       ScansResponse.fromDict now (.obj kvs) =
         Except.ok ⟨[], Json.num 0, Json.num 1⟩) := by
  refine ⟨?_, ?_, ?_⟩
  · intro r hr
    cases h1 : jget kvs "analyzer" with
    | none => simp [UploadResponse.fromDict, pyIndex, h1, bind, Except.bind] at hr
    | some a =>
      cases h2 : jget kvs "status" with
      | none =>
          simp [UploadResponse.fromDict, pyIndex, h1, h2, bind, Except.bind] at hr
      | some s =>
        cases h3 : jget kvs "hash" with
        | none =>
            simp [UploadResponse.fromDict, pyIndex, h1, h2, h3,
              bind, Except.bind] at hr
        | some hh =>
          cases h4 : jget kvs "scan_type" with
          | none =>
              simp [UploadResponse.fromDict, pyIndex, h1, h2, h3, h4,
                bind, Except.bind] at hr
          | some sc =>
            cases h5 : jget kvs "file_name" with
            | none =>
                simp [UploadResponse.fromDict, pyIndex, h1, h2, h3, h4, h5,
                  bind, Except.bind, Functor.map, Except.map] at hr
            | some f =>
                simp only [UploadResponse.fromDict, pyIndex, h1, h2, h3, h4, h5,
                  bind, Except.bind, Functor.map, Except.map, pure, Except.pure,
                  Except.ok.injEq] at hr
                subst hr
                exact ⟨rfl, rfl, rfl, rfl, rfl⟩
  · intro r hr
    cases h1 : jget kvs "deleted" with
    | none =>
        simp [DeleteScanResponse.fromDict, pyIndex, h1, bind, Except.bind,
          pure, Except.pure] at hr
    | some d =>
        simp only [DeleteScanResponse.fromDict, pyIndex, h1, bind, Except.bind,
          pure, Except.pure, Except.ok.injEq] at hr
        subst hr
        rfl
  · intro now h1 h2 h3
    simp only [ScansResponse.fromDict, jgetD, h1, h2, h3, Option.getD_none]
    rfl

/-- C6 witness: a fully-populated upload body decodes with every field
taken from the input; an object with none of the scans fields still
constructs a defaulted record. -/
theorem C6_required_fields_witness :
    (jget [("analyzer", Json.str "st"), ("status", Json.str "ok"),
        ("hash", Json.str "h1"), ("scan_type", Json.str "apk"),
        ("file_name", Json.str "f1")] "analyzer" = some (Json.str "st") ∧
     jget [("analyzer", Json.str "st"), ("status", Json.str "ok"),
        ("hash", Json.str "h1"), ("scan_type", Json.str "apk"),
        ("file_name", Json.str "f1")] "status" = some (Json.str "ok") ∧
     jget [("analyzer", Json.str "st"), ("status", Json.str "ok"),
        ("hash", Json.str "h1"), ("scan_type", Json.str "apk"),
        ("file_name", Json.str "f1")] "hash" = some (Json.str "h1") ∧
     jget [("analyzer", Json.str "st"), ("status", Json.str "ok"),
        ("hash", Json.str "h1"), ("scan_type", Json.str "apk"),
        ("file_name", Json.str "f1")] "scan_type" = some (Json.str "apk") ∧
     jget [("analyzer", Json.str "st"), ("status", Json.str "ok"),
        ("hash", Json.str "h1"), ("scan_type", Json.str "apk"),
        ("file_name", Json.str "f1")] "file_name" = some (Json.str "f1")) ∧
    ScansResponse.fromDict 2 (.obj [("x", Json.num 9)]) =
      Except.ok ⟨[], Json.num 0, Json.num 1⟩ :=
  ⟨(C6_required_fields [("analyzer", Json.str "st"), ("status", Json.str "ok"),
      ("hash", Json.str "h1"), ("scan_type", Json.str "apk"),
      ("file_name", Json.str "f1")]).1
      ⟨.str "st", .str "ok", .str "h1", .str "apk", .str "f1"⟩ rfl,
   (C6_required_fields [("x", Json.num 9)]).2.2 2 rfl rfl rfl⟩
